import Mathlib

/-!
Shallow embedding of the aws-pulumi-example repository: the account project
(src/unnamed/part_000), the shared-resources project (src/shared/index.ts) and
the api service project (src/api/index.ts).  The embedding models the accounts
mapping, stack-reference output resolution, scoped-provider construction, the
resource lists of each project with their provider options, and the declared
dependency graph of the DNS / certificate chain.
-/

namespace AwsPulumi

/-- An Account Record as exported by the account project: the account
identifier and the role ARN used to assume into it. -/
structure Account where
  id : String
  arn : String
deriving DecidableEq

/-- Arguments of the aws.organizations.Account resource in the account
project. -/
structure OrgAccountArgs where
  name : String
  email : String
  roleName : String
  closeOnDeletion : Bool
deriving DecidableEq

/-- Resource options passed as the third constructor argument. -/
structure ResourceOpts where
  protect : Bool
deriving DecidableEq

/-- Email interpolation for the development account. -/
def devAccountEmail (hex : String) : String :=
  "superadmin+" ++ hex ++ "@example.com"

/-- The development account resource arguments, as written in the account
project; hex is the resolved value of the random id output. -/
def devAccountArgs (hex : String) : OrgAccountArgs :=
  { name := "Development"
    email := devAccountEmail hex
    roleName := "OrganizationalAccountAccessRole"
    closeOnDeletion := true }

/-- Resource options of the development account resource. -/
def devAccountOpts : ResourceOpts :=
  { protect := true }

/-- All aws.organizations.Account resources the account project creates,
with their options. -/
def accountProjectAccounts (hex : String) : List (OrgAccountArgs × ResourceOpts) :=
  [(devAccountArgs hex, devAccountOpts)]

/-- The role ARN interpolation of the accounts export. -/
def accountRoleArn (accountId : String) : String :=
  "arn:aws:iam::" ++ accountId ++ ":role/OrganizationalAccountAccessRole"

/-- The accounts mapping exported by the account project, keyed by the
environment short name; devAccountId is the resolved id output of the
development account. -/
def accounts (devAccountId : String) : List (String × Account) :=
  [("dev", { id := devAccountId, arn := accountRoleArn devAccountId })]

/-- Membership access of a javascript record: accountsMap of stack. -/
def lookupEnv (m : List (String × Account)) (e : String) : Option Account :=
  match m with
  | [] => none
  | (k, a) :: rest => if k = e then some a else lookupEnv rest e

/-- The published output set of a referenced stack, by output name.  The only
output the consuming projects read is the accounts mapping. -/
def StackOutputs : Type := String → Option (List (String × Account))

/-- StackReference.getOutput: a possibly undefined deferred value. -/
def getOutput (outs : StackOutputs) (name : String) : Option (List (String × Account)) :=
  outs name

/-- StackReference.requireOutput: fails when the named output is absent. -/
def requireOutput (outs : StackOutputs) (name : String) :
    Except String (List (String × Account)) :=
  match outs name with
  | some v => Except.ok v
  | none => Except.error ("missing required output " ++ name)

/-- The error the apply callback raises when the accounts mapping has no entry
for the active stack and the callback reads a member of undefined. -/
def envIdErrMsg (stack : String) : String :=
  "TypeError: cannot read id of undefined account entry for stack " ++ stack

/-- The apply callback of the allowed-account-ids input: accountsMap of stack,
then its id member; reading a member of undefined raises. -/
def envAccountId (m : List (String × Account)) (stack : String) : Except String String :=
  match lookupEnv m stack with
  | some a => Except.ok a.id
  | none => Except.error (envIdErrMsg stack)

/-- The apply callback of the assume-role input: accountsMap of stack, then
its arn member. -/
def envAccountArn (m : List (String × Account)) (stack : String) : Except String String :=
  match lookupEnv m stack with
  | some a => Except.ok a.arn
  | none => Except.error (envIdErrMsg stack)

/-- Assume-role block of a provider. -/
structure AssumeRole where
  roleArn : String
deriving DecidableEq

/-- Arguments of the scoped aws.Provider. -/
structure ProviderArgs where
  region : String
  allowedAccountIds : List String
  assumeRole : AssumeRole
deriving DecidableEq

/-- The error raised when getOutput returned undefined and the apply callback
indexes into it. -/
def undefinedOutputMsg : String :=
  "TypeError: cannot index undefined accounts output"

/-- The scoped provider of the shared project: one getOutput read of the
accounts output, then one apply for the allowed account id and one for the
assume-role ARN. -/
def sharedProvider (outs : StackOutputs) (region stack : String) :
    Except String ProviderArgs :=
  match getOutput outs "accounts" with
  | none => Except.error undefinedOutputMsg
  | some m =>
    match envAccountId m stack with
    | Except.error msg => Except.error msg
    | Except.ok i =>
      match envAccountArn m stack with
      | Except.error msg => Except.error msg
      | Except.ok r =>
        Except.ok { region := region, allowedAccountIds := [i], assumeRole := { roleArn := r } }

/-- First requireOutput read of the accounts output in the api provider,
feeding the allowed-account-ids input. -/
def apiAllowedAccountsRead (outs : StackOutputs) : Except String (List (String × Account)) :=
  requireOutput outs "accounts"

/-- Second requireOutput read of the accounts output in the api provider,
feeding the assume-role input. -/
def apiAssumeRoleAccountsRead (outs : StackOutputs) : Except String (List (String × Account)) :=
  requireOutput outs "accounts"

/-- The scoped provider of the api project: two requireOutput reads of the
accounts output, one per input. -/
def apiProvider (outs : StackOutputs) (stack : String) : Except String ProviderArgs :=
  match apiAllowedAccountsRead outs with
  | Except.error msg => Except.error msg
  | Except.ok mAllowed =>
    match envAccountId mAllowed stack with
    | Except.error msg => Except.error msg
    | Except.ok i =>
      match apiAssumeRoleAccountsRead outs with
      | Except.error msg => Except.error msg
      | Except.ok mAssume =>
        match envAccountArn mAssume stack with
        | Except.error msg => Except.error msg
        | Except.ok r =>
          Except.ok { region := "eu-west-2", allowedAccountIds := [i], assumeRole := { roleArn := r } }

/-- The published output set of the account project prod stack: its sole
consumed output is the accounts mapping. -/
def awsStackOutputs (devAccountId : String) : StackOutputs :=
  fun name => if name = "accounts" then some (accounts devAccountId) else none

/-- Identifiers of the resources declared by the shared and api projects
(the cloudflare zone is read via a get, it is listed as a graph node only). -/
inductive Res where
  | cloudflareZone
  | sesDomainIdentity
  | sesDomainDkim
  | sesDomainDkimRecords
  | sesRecordVerificationRecord
  | sesDomainVerification
  | certificate
  | certificateValidation
  | certificateValidationRecord
  | vpc
  | loadBalancerSecurityGroup
  | loadBalancer
  | listener
  | ecsCluster
  | rdsSecurityGroup
  | rdsSubnetGroup
  | rdsInstanceMasterPassword
  | rdsCluster
  | rdsInstance
  | exampleSecretParameter
  | targetGroup
  | listenerRule
  | repository
  | image
  | executionRole
  | ssmPolicyAttachment
  | taskExecutionPolicyAttachment
  | apiSecurityGroup
  | appService
  | appDomainRecord
deriving DecidableEq

/-- The cloud provider family a resource constructor belongs to. -/
inductive Cloud where
  | aws
  | cloudflare
  | random
deriving DecidableEq

/-- The resource type of each declared resource. -/
inductive Kind where
  | orgAccount
  | cfZone
  | cfRecord
  | sesDomainIdentity
  | sesDomainDkim
  | sesDomainIdentityVerification
  | acmCertificate
  | acmCertificateValidation
  | ec2Vpc
  | ec2SecurityGroup
  | lbLoadBalancer
  | lbListener
  | lbTargetGroup
  | lbListenerRule
  | ecsCluster
  | ecsFargateService
  | rdsSecurityGroup
  | rdsSubnetGroup
  | rdsCluster
  | rdsClusterInstance
  | randomPassword
  | ssmParameter
  | ecrRepository
  | ecrImage
  | iamRole
  | iamRolePolicyAttachment
deriving DecidableEq

/-- Resource type of each node. -/
def kindOf : Res → Kind
  | Res.cloudflareZone => Kind.cfZone
  | Res.sesDomainIdentity => Kind.sesDomainIdentity
  | Res.sesDomainDkim => Kind.sesDomainDkim
  | Res.sesDomainDkimRecords => Kind.cfRecord
  | Res.sesRecordVerificationRecord => Kind.cfRecord
  | Res.sesDomainVerification => Kind.sesDomainIdentityVerification
  | Res.certificate => Kind.acmCertificate
  | Res.certificateValidation => Kind.acmCertificateValidation
  | Res.certificateValidationRecord => Kind.cfRecord
  | Res.vpc => Kind.ec2Vpc
  | Res.loadBalancerSecurityGroup => Kind.ec2SecurityGroup
  | Res.loadBalancer => Kind.lbLoadBalancer
  | Res.listener => Kind.lbListener
  | Res.ecsCluster => Kind.ecsCluster
  | Res.rdsSecurityGroup => Kind.ec2SecurityGroup
  | Res.rdsSubnetGroup => Kind.rdsSubnetGroup
  | Res.rdsInstanceMasterPassword => Kind.randomPassword
  | Res.rdsCluster => Kind.rdsCluster
  | Res.rdsInstance => Kind.rdsClusterInstance
  | Res.exampleSecretParameter => Kind.ssmParameter
  | Res.targetGroup => Kind.lbTargetGroup
  | Res.listenerRule => Kind.lbListenerRule
  | Res.repository => Kind.ecrRepository
  | Res.image => Kind.ecrImage
  | Res.executionRole => Kind.iamRole
  | Res.ssmPolicyAttachment => Kind.iamRolePolicyAttachment
  | Res.taskExecutionPolicyAttachment => Kind.iamRolePolicyAttachment
  | Res.apiSecurityGroup => Kind.ec2SecurityGroup
  | Res.appService => Kind.ecsFargateService
  | Res.appDomainRecord => Kind.cfRecord

/-- One declared resource creation: its node, its cloud family, and whether
its options pass the scoped provider. -/
structure ResourceInfo where
  res : Res
  cloud : Cloud
  usesScopedProvider : Bool
deriving DecidableEq

/-- The resources the shared project creates, in declaration order, with the
provider option as written in src/shared/index.ts. -/
def sharedCreated : List ResourceInfo :=
  [ { res := Res.sesDomainIdentity, cloud := Cloud.aws, usesScopedProvider := true }
  , { res := Res.sesDomainDkim, cloud := Cloud.aws, usesScopedProvider := true }
  , { res := Res.sesDomainDkimRecords, cloud := Cloud.cloudflare, usesScopedProvider := false }
  , { res := Res.sesRecordVerificationRecord, cloud := Cloud.cloudflare, usesScopedProvider := false }
  , { res := Res.sesDomainVerification, cloud := Cloud.aws, usesScopedProvider := true }
  , { res := Res.certificate, cloud := Cloud.aws, usesScopedProvider := true }
  , { res := Res.certificateValidation, cloud := Cloud.aws, usesScopedProvider := true }
  , { res := Res.certificateValidationRecord, cloud := Cloud.cloudflare, usesScopedProvider := false }
  , { res := Res.vpc, cloud := Cloud.aws, usesScopedProvider := true }
  , { res := Res.loadBalancerSecurityGroup, cloud := Cloud.aws, usesScopedProvider := true }
  , { res := Res.loadBalancer, cloud := Cloud.aws, usesScopedProvider := true }
  , { res := Res.listener, cloud := Cloud.aws, usesScopedProvider := true }
  , { res := Res.ecsCluster, cloud := Cloud.aws, usesScopedProvider := true }
  , { res := Res.rdsSecurityGroup, cloud := Cloud.aws, usesScopedProvider := true }
  , { res := Res.rdsSubnetGroup, cloud := Cloud.aws, usesScopedProvider := true }
  , { res := Res.rdsInstanceMasterPassword, cloud := Cloud.random, usesScopedProvider := false }
  , { res := Res.rdsCluster, cloud := Cloud.aws, usesScopedProvider := true }
  , { res := Res.rdsInstance, cloud := Cloud.aws, usesScopedProvider := true } ]

/-- The resources the api project creates, in declaration order, with the
provider option as written in src/api/index.ts. -/
def apiCreated : List ResourceInfo :=
  [ { res := Res.exampleSecretParameter, cloud := Cloud.aws, usesScopedProvider := true }
  , { res := Res.targetGroup, cloud := Cloud.aws, usesScopedProvider := true }
  , { res := Res.listenerRule, cloud := Cloud.aws, usesScopedProvider := true }
  , { res := Res.repository, cloud := Cloud.aws, usesScopedProvider := true }
  , { res := Res.image, cloud := Cloud.aws, usesScopedProvider := true }
  , { res := Res.executionRole, cloud := Cloud.aws, usesScopedProvider := true }
  , { res := Res.ssmPolicyAttachment, cloud := Cloud.aws, usesScopedProvider := true }
  , { res := Res.taskExecutionPolicyAttachment, cloud := Cloud.aws, usesScopedProvider := true }
  , { res := Res.apiSecurityGroup, cloud := Cloud.aws, usesScopedProvider := true }
  , { res := Res.appService, cloud := Cloud.aws, usesScopedProvider := true }
  , { res := Res.appDomainRecord, cloud := Cloud.cloudflare, usesScopedProvider := false } ]

/-- The record of a resource in the combined created lists. -/
def createdInfo (r : Res) : Option ResourceInfo :=
  (sharedCreated ++ apiCreated).find? (fun i => decide (i.res = r))

/-- Direct dependencies of each shared-project resource: an edge exists when
an input of the resource is wired from an output of the target, or the target
is listed in dependsOn.  Only the shared project graph is modelled. -/
def dependsDirect : Res → List Res
  | Res.sesDomainIdentity => [Res.cloudflareZone]
  | Res.sesDomainDkim => [Res.sesDomainIdentity]
  | Res.sesDomainDkimRecords => [Res.sesDomainDkim, Res.cloudflareZone]
  | Res.sesRecordVerificationRecord => [Res.sesDomainIdentity, Res.cloudflareZone]
  | Res.sesDomainVerification => [Res.sesDomainIdentity, Res.sesRecordVerificationRecord]
  | Res.certificate => [Res.cloudflareZone]
  | Res.certificateValidation => [Res.certificate]
  | Res.certificateValidationRecord => [Res.certificate, Res.cloudflareZone]
  | Res.loadBalancerSecurityGroup => [Res.vpc]
  | Res.loadBalancer => [Res.loadBalancerSecurityGroup, Res.vpc]
  | Res.listener => [Res.loadBalancer, Res.certificate]
  | Res.rdsSecurityGroup => [Res.vpc]
  | Res.rdsSubnetGroup => [Res.vpc]
  | Res.rdsCluster => [Res.rdsSubnetGroup, Res.rdsSecurityGroup, Res.rdsInstanceMasterPassword]
  | Res.rdsInstance => [Res.rdsCluster, Res.rdsSubnetGroup]
  | _ => []

/-- Fuel-bounded reachability along direct dependency edges. -/
def reachesAux : Nat → Res → Res → Bool
  | 0, _, _ => false
  | Nat.succ fuel, a, b =>
    (dependsDirect a).any (fun c => decide (c = b) || reachesAux fuel c b)

/-- Resource a is gated on resource b: a dependency path from a to b exists,
so the engine creates b before a. -/
def gatedOn (a b : Res) : Bool :=
  reachesAux 32 a b

/-- Where an input value of a resource comes from: a named output of the
shared stack reference, an output field of a resource of the same project, or
a literal. -/
inductive InputRef where
  | sharedOutput (name : String)
  | resOutput (r : Res) (field : String)
  | lit (s : String)
deriving DecidableEq

/-- One ingress or egress rule of a security group. -/
structure SecurityGroupRule where
  protocol : String
  fromPort : Nat
  toPort : Nat
  cidrBlocks : List String
deriving DecidableEq

/-- Arguments of the rds security group in the shared project. -/
structure SecurityGroupArgs where
  name : String
  vpcId : InputRef
  ingress : List SecurityGroupRule
  egress : List SecurityGroupRule
deriving DecidableEq

/-- The rds security group of the shared project. -/
def rdsSecurityGroupArgs (project stack : String) : SecurityGroupArgs :=
  { name := project ++ "-rds-cluster-sg-" ++ stack
    vpcId := InputRef.resOutput Res.vpc "id"
    ingress :=
      [ { protocol := "tcp", fromPort := 5432, toPort := 5432, cidrBlocks := ["0.0.0.0/0"] } ]
    egress :=
      [ { protocol := "-1", fromPort := 0, toPort := 0, cidrBlocks := ["0.0.0.0/0"] } ] }

/-- Arguments of the rds subnet group in the shared project. -/
structure SubnetGroupArgs where
  name : String
  subnetIds : InputRef
deriving DecidableEq

/-- The rds subnet group of the shared project, built from the public subnet
ids of the vpc. -/
def rdsSubnetGroupArgs (project stack : String) : SubnetGroupArgs :=
  { name := project ++ "-rds-cluster-subnet-group-" ++ stack
    subnetIds := InputRef.resOutput Res.vpc "publicSubnetIds" }

/-- Arguments of the rds cluster in the shared project (the fields the claims
touch, plus identifying fields). -/
structure RdsClusterArgs where
  clusterIdentifierPrefix : String
  dbSubnetGroupName : InputRef
  vpcSecurityGroupIds : List InputRef
  engine : String
  engineMode : String
  engineVersion : String
  databaseName : String
  masterUsername : String
  storageEncrypted : Bool
  iamDatabaseAuthenticationEnabled : Bool
  backupRetentionPeriod : Nat
  skipFinalSnapshot : Bool
  deletionProtection : Bool
deriving DecidableEq

/-- The rds cluster of the shared project. -/
def rdsClusterArgs (project stack : String) : RdsClusterArgs :=
  { clusterIdentifierPrefix := project ++ "-rds-cluster-" ++ stack
    dbSubnetGroupName := InputRef.resOutput Res.rdsSubnetGroup "name"
    vpcSecurityGroupIds := [InputRef.resOutput Res.rdsSecurityGroup "id"]
    engine := "aurora-postgresql"
    engineMode := "provisioned"
    engineVersion := "16.1"
    databaseName := "exampledb"
    masterUsername := "example"
    storageEncrypted := true
    iamDatabaseAuthenticationEnabled := true
    backupRetentionPeriod := 35
    skipFinalSnapshot := true
    deletionProtection := decide (stack = "prod") }

/-- Arguments of the rds cluster instance in the shared project. -/
structure ClusterInstanceArgs where
  identifierPrefix : String
  clusterIdentifier : InputRef
  dbSubnetGroupName : InputRef
  instanceClass : String
  performanceInsightsEnabled : Bool
  performanceInsightsRetentionPeriod : Nat
  publiclyAccessible : Bool
deriving DecidableEq

/-- The rds cluster instance of the shared project. -/
def rdsInstanceArgs (project stack : String) : ClusterInstanceArgs :=
  { identifierPrefix := project ++ "-rds-cluster-instance-" ++ stack
    clusterIdentifier := InputRef.resOutput Res.rdsCluster "id"
    dbSubnetGroupName := InputRef.resOutput Res.rdsSubnetGroup "name"
    instanceClass := "db.serverless"
    performanceInsightsEnabled := true
    performanceInsightsRetentionPeriod := 7
    publiclyAccessible := true }

/-- Arguments of the api listener rule: it attaches a forward action to the
listener read from the shared stack outputs, guarded by a host-header
condition. -/
structure ListenerRuleArgs where
  name : String
  listenerArn : InputRef
  actionType : String
  actionTargetGroupArn : InputRef
  hostHeaderValues : List String
deriving DecidableEq

/-- The api listener rule. -/
def listenerRuleArgs (project stack domain : String) : ListenerRuleArgs :=
  { name := project ++ "-listener-" ++ stack
    listenerArn := InputRef.sharedOutput "listener"
    actionType := "forward"
    actionTargetGroupArn := InputRef.resOutput Res.targetGroup "arn"
    hostHeaderValues := [domain] }

/-- Arguments of the api fargate service: it registers onto the cluster read
from the shared stack outputs and runs in the shared private subnets. -/
structure FargateServiceArgs where
  name : String
  cluster : InputRef
  subnets : InputRef
  securityGroups : List InputRef
  desiredCount : Nat
deriving DecidableEq

/-- The api fargate service. -/
def appServiceArgs (project stack : String) : FargateServiceArgs :=
  { name := project ++ "-service-" ++ stack
    cluster := InputRef.sharedOutput "ecsCluster"
    subnets := InputRef.sharedOutput "vpc"
    securityGroups := [InputRef.resOutput Res.apiSecurityGroup "id"]
    desiredCount := 1 }

/-- A deployment run of the shared project in program order: the scoped
provider inputs resolve first, a failure aborts before any resource of the
project is created. -/
def sharedRun (outs : StackOutputs) (region stack : String) :
    Except String (ProviderArgs × List ResourceInfo) :=
  match sharedProvider outs region stack with
  | Except.error msg => Except.error msg
  | Except.ok p => Except.ok (p, sharedCreated)

/-- A deployment run of the api project in program order. -/
def apiRun (outs : StackOutputs) (stack : String) :
    Except String (ProviderArgs × List ResourceInfo) :=
  match apiProvider outs stack with
  | Except.error msg => Except.error msg
  | Except.ok p => Except.ok (p, apiCreated)

/-- Whether an except value is an error. -/
def isErr {α : Type} : Except String α → Bool
  | Except.error _ => true
  | Except.ok _ => false

/-- The accounts mapping of scenario 1 of the spec. -/
def scenario1Accounts : List (String × Account) :=
  [("dev", { id := "111", arn := "role-dev" })]

/-- The published outputs of the referenced account stack in scenario 1. -/
def scenario1Outputs : StackOutputs :=
  fun name => if name = "accounts" then some scenario1Accounts else none

/-- The role ARN of the accounts export never has length zero. -/
theorem accountRoleArn_ne_empty (s : String) : accountRoleArn s ≠ "" := by
  intro hc
  have hlen := congrArg String.length hc
  simp [accountRoleArn, String.length_append] at hlen
  exact absurd hlen.1.1 (by decide)

/-- C1: for every environment E resolved from the accounts mapping, the scoped
provider built from the account record of E has allowed-account list exactly
the record identifier and assume-role ARN exactly the record role reference,
in both the shared and the api project. -/
theorem c1_scoped_provider_matches_account_record
    (outs : StackOutputs) (region e : String) (m : List (String × Account)) (a : Account)
    (hm : outs "accounts" = some m) (h : lookupEnv m e = some a) :
    sharedProvider outs region e =
      Except.ok { region := region, allowedAccountIds := [a.id], assumeRole := { roleArn := a.arn } } ∧
    apiProvider outs e =
      Except.ok { region := "eu-west-2", allowedAccountIds := [a.id], assumeRole := { roleArn := a.arn } } := by
  constructor
  · simp [sharedProvider, getOutput, hm, envAccountId, envAccountArn, h]
  · simp [apiProvider, apiAllowedAccountsRead, apiAssumeRoleAccountsRead, requireOutput, hm,
      envAccountId, envAccountArn, h]

/-- Scenario 1 witness for C1: the mapping maps dev to the record with id 111
and arn role-dev; both providers are restricted to exactly that record. -/
theorem c1_scoped_provider_matches_account_record_witness :
    scenario1Outputs "accounts" = some scenario1Accounts ∧
    lookupEnv scenario1Accounts "dev" = some { id := "111", arn := "role-dev" } ∧
    sharedProvider scenario1Outputs "eu-west-2" "dev" =
      Except.ok { region := "eu-west-2", allowedAccountIds := ["111"], assumeRole := { roleArn := "role-dev" } } ∧
    apiProvider scenario1Outputs "dev" =
      Except.ok { region := "eu-west-2", allowedAccountIds := ["111"], assumeRole := { roleArn := "role-dev" } } :=
  ⟨by decide, by decide,
    c1_scoped_provider_matches_account_record scenario1Outputs "eu-west-2" "dev"
      scenario1Accounts { id := "111", arn := "role-dev" } (by decide) (by decide)⟩

/-- C2: for an environment absent from the accounts mapping, the deployment
run of each consuming project fails with an error at account resolution and
produces no created resource. -/
theorem c2_missing_env_fails_before_resources
    (outs : StackOutputs) (region e : String) (m : List (String × Account))
    (hm : outs "accounts" = some m) (h : lookupEnv m e = none) :
    sharedRun outs region e = Except.error (envIdErrMsg e) ∧
    apiRun outs e = Except.error (envIdErrMsg e) := by
  constructor
  · simp [sharedRun, sharedProvider, getOutput, hm, envAccountId, h]
  · simp [apiRun, apiProvider, apiAllowedAccountsRead, requireOutput, hm, envAccountId, h]

/-- Scenario 2 witness for C2: the published mapping lacks staging and both
runs abort with the resolution error. -/
theorem c2_missing_env_fails_before_resources_witness :
    awsStackOutputs "111" "accounts" = some (accounts "111") ∧
    lookupEnv (accounts "111") "staging" = none ∧
    sharedRun (awsStackOutputs "111") "eu-west-2" "staging" = Except.error (envIdErrMsg "staging") ∧
    apiRun (awsStackOutputs "111") "staging" = Except.error (envIdErrMsg "staging") :=
  ⟨by decide, by decide,
    c2_missing_env_fails_before_resources (awsStackOutputs "111") "eu-west-2" "staging"
      (accounts "111") (by decide) (by decide)⟩

/-- C3 counterexample: the ses verification DNS record is created by the
shared project without the scoped provider, so not every resource of the two
projects goes through it. -/
theorem c3_counterexample_ses_verification_record_without_provider :
    ({ res := Res.sesRecordVerificationRecord, cloud := Cloud.cloudflare,
        usesScopedProvider := false } : ResourceInfo) ∈ sharedCreated ∧
    ¬ (∀ i ∈ sharedCreated ++ apiCreated, i.usesScopedProvider = true) := by
  decide

/-- C3 amended: every aws resource of the shared and api projects is created
through the scoped provider; only the cloudflare records and the random
password resources are created without it. -/
theorem c3_amended_aws_resources_use_scoped_provider :
    ((sharedCreated ++ apiCreated).all fun i =>
      !(decide (i.cloud = Cloud.aws)) || i.usesScopedProvider) = true ∧
    ((sharedCreated ++ apiCreated).all fun i =>
      i.usesScopedProvider || decide (i.cloud = Cloud.cloudflare) ||
        decide (i.cloud = Cloud.random)) = true := by
  decide

/-- C4: every environment present in the accounts mapping resolves to a record
with a non-empty identifier and a non-empty role reference, the latter being
the ARN derived from the identifier. -/
theorem c4_resolved_account_record_nonempty
    (devAccountId e : String) (a : Account)
    (hid : devAccountId ≠ "")
    (h : lookupEnv (accounts devAccountId) e = some a) :
    a.id ≠ "" ∧ a.arn ≠ "" ∧ a.arn = accountRoleArn a.id := by
  simp only [accounts, lookupEnv] at h
  split at h
  · cases h
    exact ⟨hid, accountRoleArn_ne_empty devAccountId, rfl⟩
  · cases h

/-- C5 counterexample: the certificate-validation resource has no dependency
path to the domain-validation DNS record, so its creation is not gated on that
record existing. -/
theorem c5_counterexample_cert_validation_not_gated_on_record :
    gatedOn Res.certificateValidation Res.certificateValidationRecord = false := by
  decide

/-- C5 amended: the verification-completion resource is gated on the DNS
record proving control, and each DNS record is gated on the resource it
validates; but the certificate-validation resource is gated only on the
certificate, not on the domain-validation DNS record, and the certificate is
not gated on verification completion. -/
theorem c5_amended_validation_chain_gating :
    gatedOn Res.sesRecordVerificationRecord Res.sesDomainIdentity = true ∧
    gatedOn Res.sesDomainVerification Res.sesRecordVerificationRecord = true ∧
    gatedOn Res.certificateValidationRecord Res.certificate = true ∧
    gatedOn Res.certificateValidation Res.certificate = true ∧
    gatedOn Res.certificateValidation Res.certificateValidationRecord = false ∧
    gatedOn Res.certificate Res.sesDomainVerification = false := by
  decide

/-- C6: the two reads of the accounts output in the api project resolve to the
same value, and a successfully constructed api provider draws its allowed
account id and its assume-role ARN from the same account record. -/
theorem c6_output_reads_idempotent (outs : StackOutputs) :
    apiAllowedAccountsRead outs = apiAssumeRoleAccountsRead outs ∧
    ∀ e p, apiProvider outs e = Except.ok p →
      ∃ m a, apiAllowedAccountsRead outs = Except.ok m ∧
        apiAssumeRoleAccountsRead outs = Except.ok m ∧
        lookupEnv m e = some a ∧
        p.allowedAccountIds = [a.id] ∧ p.assumeRole.roleArn = a.arn := by
  refine ⟨rfl, ?_⟩
  intro e p hp
  unfold apiProvider at hp
  split at hp
  · cases hp
  rename_i mAllowed hA
  split at hp
  · cases hp
  rename_i i hI
  split at hp
  · cases hp
  rename_i mAssume hB
  split at hp
  · cases hp
  rename_i r hR
  cases hp
  have hBA : Except.ok (ε := String) mAllowed = Except.ok mAssume := hA.symm.trans hB
  cases hBA
  unfold envAccountId at hI
  unfold envAccountArn at hR
  split at hI
  · rename_i a hL
    cases hI
    split at hR
    · rename_i b hLb
      cases hR
      have hab : some a = some b := hL.symm.trans hLb
      cases hab
      exact ⟨mAllowed, a, hA, hB, hL, rfl, rfl⟩
    · rename_i hLb
      rw [hL] at hLb
      cases hLb
  · cases hI

/-- C7: the api project creates no load balancer, listener, cluster or vpc of
its own; its listener rule attaches to the listener read from the shared stack
outputs and its service registers onto the shared cluster, in the shared
private subnets. -/
theorem c7_api_attaches_without_redefining_shared (project stack domain : String) :
    (apiCreated.all fun i =>
      !(decide (kindOf i.res = Kind.lbLoadBalancer)) &&
      !(decide (kindOf i.res = Kind.lbListener)) &&
      !(decide (kindOf i.res = Kind.ecsCluster)) &&
      !(decide (kindOf i.res = Kind.ec2Vpc))) = true ∧
    (listenerRuleArgs project stack domain).listenerArn = InputRef.sharedOutput "listener" ∧
    (listenerRuleArgs project stack domain).actionType = "forward" ∧
    (appServiceArgs project stack).cluster = InputRef.sharedOutput "ecsCluster" ∧
    (appServiceArgs project stack).subnets = InputRef.sharedOutput "vpc" :=
  ⟨by decide, rfl, rfl, rfl, rfl⟩

/-- C8: the account project creates exactly one account; it is protected from
deletion and carries the explicit close-on-deletion flag. -/
theorem c8_account_created_once_protected (hex : String) :
    (accountProjectAccounts hex).length = 1 ∧
    ((accountProjectAccounts hex).all fun p => p.1.closeOnDeletion && p.2.protect) = true :=
  ⟨rfl, rfl⟩

/-- C9: the accounts mapping has the single key dev, and every other stack
name fails account resolution in both consuming projects. -/
theorem c9_accounts_mapping_only_dev (devAccountId region e : String) (h : e ≠ "dev") :
    (accounts devAccountId).map Prod.fst = ["dev"] ∧
    lookupEnv (accounts devAccountId) e = none ∧
    isErr (sharedRun (awsStackOutputs devAccountId) region e) = true ∧
    isErr (apiRun (awsStackOutputs devAccountId) e) = true := by
  have hl : lookupEnv (accounts devAccountId) e = none := by
    simp only [accounts, lookupEnv]
    rw [if_neg (fun hh => h hh.symm)]
  refine ⟨rfl, hl, ?_, ?_⟩
  · simp [sharedRun, sharedProvider, getOutput, awsStackOutputs, envAccountId, hl, isErr]
  · simp [apiRun, apiProvider, apiAllowedAccountsRead, requireOutput, awsStackOutputs,
      envAccountId, hl, isErr]

/-- Witness for C9 at stack prod. -/
theorem c9_accounts_mapping_only_dev_witness :
    ("prod" : String) ≠ "dev" ∧
    (accounts "111").map Prod.fst = ["dev"] ∧
    lookupEnv (accounts "111") "prod" = none ∧
    isErr (sharedRun (awsStackOutputs "111") "eu-west-2" "prod") = true ∧
    isErr (apiRun (awsStackOutputs "111") "prod") = true :=
  ⟨by decide, c9_accounts_mapping_only_dev "111" "eu-west-2" "prod" (by decide)⟩

/-- C10: for every environment the rds cluster instance is publicly
accessible, sits in the subnet group built from the public subnets of the
vpc, the cluster attaches the rds security group, and that group admits tcp
ingress on port 5432 from any ipv4 address. -/
theorem c10_rds_publicly_accessible_open_ingress (project stack : String) :
    (rdsInstanceArgs project stack).publiclyAccessible = true ∧
    (rdsInstanceArgs project stack).dbSubnetGroupName =
      InputRef.resOutput Res.rdsSubnetGroup "name" ∧
    (rdsSubnetGroupArgs project stack).subnetIds =
      InputRef.resOutput Res.vpc "publicSubnetIds" ∧
    (rdsClusterArgs project stack).vpcSecurityGroupIds =
      [InputRef.resOutput Res.rdsSecurityGroup "id"] ∧
    (rdsSecurityGroupArgs project stack).ingress =
      [ { protocol := "tcp", fromPort := 5432, toPort := 5432, cidrBlocks := ["0.0.0.0/0"] } ] :=
  ⟨rfl, rfl, rfl, rfl, rfl⟩

/-- Witness for C4 at the concrete mapping with account id 111. -/
theorem c4_resolved_account_record_nonempty_witness :
    ({ id := "111", arn := accountRoleArn "111" } : Account).id ≠ "" ∧
    ({ id := "111", arn := accountRoleArn "111" } : Account).arn ≠ "" ∧
    ({ id := "111", arn := accountRoleArn "111" } : Account).arn =
      accountRoleArn ({ id := "111", arn := accountRoleArn "111" } : Account).id :=
  c4_resolved_account_record_nonempty "111" "dev" { id := "111", arn := accountRoleArn "111" }
    (by decide) (by decide)

end AwsPulumi
